import Mathlib

/-!
Shallow embedding of the GCE machine driver (drivers/google/google.go).

The driver's provider client (computeutil) is an external collaborator:
its calls are modelled by environments that record, per invocation, the
result the provider would return.  Each lifecycle method is translated
from google.go into a Lean function of the driver configuration and such
an environment, returning the trace of steps it performed, the resulting
error, and the updated driver fields.
-/

namespace Google

/-- Errors crossing the provider boundary.  Modelled from the spec (4.1, 7, 9):
the distinguished not-found classification is done by inspecting the error
text, so `notFound` stands for exactly those errors whose text carries the
not-found marker and `transient msg` for every other provider error.
The remaining constructors are the driver-side errors produced at the
error sites of google.go. -/
inductive GError where
  | notFound
  | transient (msg : String)
  | hostNotRunning
  | missingProject
  | missingExternalFirewallRulePref
  | projectLookupFailed (inner : String)
  | instanceNotFoundInZone
  | instanceAlreadyExistsInZone
  | userdataUnreadable
deriving DecidableEq, Repr

/-- Modelled from the spec: isNotFound from computeutil.go (not in src)
classifies an error as the distinguished not-found condition; under the
error model above that is exactly the `notFound` constructor, which also
captures the text containment check used in GetState. -/
def isNotFound : GError → Bool
  | GError.notFound => true
  | _ => false

/-- A remote instance as far as google.go inspects it: only its Status
string is read (GetState); elsewhere only presence is checked. -/
structure VMInstance where
  status : String
deriving DecidableEq, Repr

/-- Coarse lifecycle state (libmachine state.State values used by the driver). -/
inductive VMState where
  | None
  | NotFound
  | Stopped
  | Starting
  | Running
deriving DecidableEq, Repr

/-- The steps a lifecycle method can perform, in the order google.go issues
them; a trace of these is returned alongside each method's result. -/
inductive Step where
  | generateSSHKey
  | getProject
  | probeInstance
  | probeDisk
  | readUserdata
  | getExternalFirewallRule
  | getInternalFirewallRule
  | ensureExternalFirewallRule
  | ensureInternalFirewallRule
  | createInstance
  | configureInstance
  | startInstance
  | stopInstance
  | deleteInstance
  | deleteDisk
  | cleanExternalFirewallRule
  | cleanInternalFirewallRule
  | resolveIP
deriving DecidableEq, Repr

/-- Which steps mutate remote provider state.  Key generation, reads,
probes, local file reads and IP resolution are not provider mutations. -/
def Step.isProviderMutation : Step → Bool
  | Step.ensureExternalFirewallRule => true
  | Step.ensureInternalFirewallRule => true
  | Step.createInstance => true
  | Step.configureInstance => true
  | Step.startInstance => true
  | Step.stopInstance => true
  | Step.deleteInstance => true
  | Step.deleteDisk => true
  | Step.cleanExternalFirewallRule => true
  | Step.cleanInternalFirewallRule => true
  | _ => false

/-- The Driver struct of google.go, including the BaseDriver fields the
file reads or writes (SSHUser, SSHPort, IPAddress, MachineName). -/
structure Driver where
  auth : String
  zone : String
  machineType : String
  machineImage : String
  diskType : String
  address : String
  network : String
  subnetwork : String
  preemptible : Bool
  useInternalIP : Bool
  useInternalIPOnly : Bool
  scopes : String
  diskSize : Int
  project : String
  tags : String
  labels : String
  useExisting : Bool
  openPorts : List String
  externalFirewallRulePref : String
  internalFirewallRulePref : String
  userdata : String
  sshUser : String
  sshPort : Int
  ipAddress : String
  machineName : String
deriving DecidableEq, Repr

/-- Result of a lifecycle method: the steps performed, the returned error,
and the driver with any field updates the method made. -/
structure OpResult where
  trace : List Step
  err : Option GError
  drv : Driver
deriving DecidableEq, Repr

/-! ## GetState (google.go lines 395-424) -/

/-- The status switch at the end of GetState: PROVISIONING and STAGING map
to Starting, RUNNING to Running, STOPPING, STOPPED and TERMINATED to
Stopped, and any other status falls through to None. -/
def statusToState (s : String) : VMState :=
  if s = "PROVISIONING" ∨ s = "STAGING" then VMState.Starting
  else if s = "RUNNING" then VMState.Running
  else if s = "STOPPING" ∨ s = "STOPPED" ∨ s = "TERMINATED" then VMState.Stopped
  else VMState.None

/-- GetState.  `utilErr` is the result of newComputeUtil, `instRes` the
(instance, error) pair returned by c.instance(), and `diskRes` the disk
returned by c.disk() (only its presence is checked, per the code's own
comment; its error is discarded).  Returns the Go pair (state, error). -/
def GetState (utilErr : Option GError) (instRes : Option VMInstance × Option GError)
    (diskRes : Option Unit) : VMState × Option GError :=
  match utilErr with
  | some e => (VMState.None, some e)
  | none =>
    match instRes.1 with
    | none =>
      if (match instRes.2 with | some e => isNotFound e | none => false) then
        (VMState.NotFound, none)
      else
        match diskRes with
        | none => (VMState.None, none)
        | some _ => (VMState.Stopped, none)
    | some i => (statusToState i.status, none)

/-- The first-match decision table of spec section 4.3, written rule by
rule in the spec's order, independently of the GetState translation. -/
def specStateTable (inst : Option VMInstance) (instErr : Option GError)
    (diskPresent : Option Unit) : VMState :=
  if inst = none ∧ instErr = some GError.notFound then VMState.NotFound
  else if inst = none ∧ diskPresent = none then VMState.None
  else if inst = none then VMState.Stopped
  else
    match inst with
    | some i =>
      if i.status = "PROVISIONING" ∨ i.status = "STAGING" then VMState.Starting
      else if i.status = "RUNNING" then VMState.Running
      else if i.status = "STOPPING" ∨ i.status = "STOPPED" ∨ i.status = "TERMINATED" then
        VMState.Stopped
      else VMState.None
    | none => VMState.None

/-! ## Create (google.go lines 329-364) -/

/-- Provider-call results consumed by Create: SSH key generation,
newComputeUtil, the two firewall-rule ensure operations, and
configureInstance / createInstance.  `none` means the call succeeds. -/
structure CreateEnv where
  generateKeyErr : Option GError
  newUtilErr : Option GError
  ensureExternalErr : Option GError
  ensureInternalErr : Option GError
  configureErr : Option GError
  createErr : Option GError
deriving DecidableEq, Repr

/-- Final phase of Create: configureInstance when useExisting, else
createInstance (google.go lines 360-363). -/
def createInstancePhase (d : Driver) (env : CreateEnv) : List Step × Option GError :=
  if d.useExisting then ([Step.configureInstance], env.configureErr)
  else ([Step.createInstance], env.createErr)

/-- Internal-firewall phase of Create: when an internal rule name marker is
configured, openInternalFirewallPorts runs and a failure aborts; otherwise
the phase is a log-only no-op (google.go lines 352-358). -/
def createInternalRulePhase (d : Driver) (env : CreateEnv) : List Step × Option GError :=
  if d.internalFirewallRulePref ≠ "" then
    match env.ensureInternalErr with
    | some e => ([Step.ensureInternalFirewallRule], some e)
    | none =>
      let rest := createInstancePhase d env
      (Step.ensureInternalFirewallRule :: rest.1, rest.2)
  else createInstancePhase d env

/-- Open-ports phase of Create: when openPorts is non-empty, an empty
external rule name marker is a fatal precondition violation, otherwise
openPublicFirewallPorts runs and a failure aborts (google.go lines 343-350). -/
def createPortsPhase (d : Driver) (env : CreateEnv) : List Step × Option GError :=
  if d.openPorts ≠ [] then
    if d.externalFirewallRulePref = "" then
      ([], some GError.missingExternalFirewallRulePref)
    else
      match env.ensureExternalErr with
      | some e => ([Step.ensureExternalFirewallRule], some e)
      | none =>
        let rest := createInternalRulePhase d env
        (Step.ensureExternalFirewallRule :: rest.1, rest.2)
  else createInternalRulePhase d env

/-- Create: SSH key generation, newComputeUtil, the open-ports phase, the
internal-rule phase, then instance creation or reconfiguration, each
aborting the sequence on error (google.go lines 329-364). -/
def Create (d : Driver) (env : CreateEnv) : List Step × Option GError :=
  match env.generateKeyErr with
  | some e => ([Step.generateSSHKey], some e)
  | none =>
    match env.newUtilErr with
    | some e => ([Step.generateSSHKey], some e)
    | none =>
      let rest := createPortsPhase d env
      (Step.generateSSHKey :: rest.1, rest.2)

/-! ## GetIP (google.go lines 377-392) -/

/-- GetIP.  `utilErr` is the newComputeUtil result and `ipRes` the result
of c.ip(); an empty resolved address is turned into the distinguished
host-not-running error.  Returns the Go pair (ip, error), so the first
component is the empty string on every error path. -/
def GetIP (utilErr : Option GError) (ipRes : Except GError String) :
    String × Option GError :=
  match utilErr with
  | some e => ("", some e)
  | none =>
    match ipRes with
    | Except.error e => ("", some e)
    | Except.ok ip => if ip = "" then ("", some GError.hostNotRunning) else (ip, none)

/-! ## Start (google.go lines 427-452) -/

/-- Provider-call results consumed by Start: newComputeUtil, the instance
probe (object, error), createInstance, startInstance, and the
newComputeUtil and c.ip() calls made by the nested d.GetIP(). -/
structure StartEnv where
  newUtilErr : Option GError
  instanceRes : Option VMInstance × Option GError
  createErr : Option GError
  startErr : Option GError
  ipUtilErr : Option GError
  ipRes : Except GError String
deriving Repr

/-- Final lines of Start: d.IPAddress, err = d.GetIP(); return err
(google.go lines 450-451).  Both assignments always happen, so the
IP-address field receives the empty string when GetIP errors. -/
def startFinish (d : Driver) (env : StartEnv) (pre : List Step) : OpResult :=
  let r := GetIP env.ipUtilErr env.ipRes
  { trace := pre ++ [Step.resolveIP], err := r.2, drv := { d with ipAddress := r.1 } }

/-- Branch of Start after the probe error check: a nil instance leads to
c.createInstance, a present one to c.startInstance (google.go lines 440-448). -/
def startBranch (d : Driver) (env : StartEnv) : OpResult :=
  match env.instanceRes.1 with
  | none =>
    match env.createErr with
    | some e => { trace := [Step.probeInstance, Step.createInstance], err := some e, drv := d }
    | none => startFinish d env [Step.probeInstance, Step.createInstance]
  | some _ =>
    match env.startErr with
    | some e => { trace := [Step.probeInstance, Step.startInstance], err := some e, drv := d }
    | none => startFinish d env [Step.probeInstance, Step.startInstance]

/-- Start: probes the instance, fails on a non-not-found probe error,
creates the instance when absent or starts it when present, then resolves
and records the IP (google.go lines 427-452). -/
def Start (d : Driver) (env : StartEnv) : OpResult :=
  match env.newUtilErr with
  | some e => { trace := [], err := some e, drv := d }
  | none =>
    match env.instanceRes.2 with
    | some e =>
      if isNotFound e then startBranch d env
      else { trace := [Step.probeInstance], err := some e, drv := d }
    | none => startBranch d env

/-- The full behavioural contract of Start proved for C4 (amended): a
non-not-found probe error fails Start at once; an absent instance leads to
the provider instance-creation call (not the full Create sequence) and a
present one to the provider start call, each followed by IP resolution
whose outcome is recorded in the IP-address field. -/
def startContract (d : Driver) (env : StartEnv) : Prop :=
  (∀ e, env.instanceRes.2 = some e → isNotFound e = false →
    Start d env = { trace := [Step.probeInstance], err := some e, drv := d }) ∧
  (env.instanceRes.1 = none →
    (∀ e, env.instanceRes.2 = some e → isNotFound e = true) →
    env.createErr = none →
    Start d env =
      { trace := [Step.probeInstance, Step.createInstance, Step.resolveIP],
        err := (GetIP env.ipUtilErr env.ipRes).2,
        drv := { d with ipAddress := (GetIP env.ipUtilErr env.ipRes).1 } }) ∧
  (∀ i, env.instanceRes.1 = some i →
    (∀ e, env.instanceRes.2 = some e → isNotFound e = true) →
    env.startErr = none →
    Start d env =
      { trace := [Step.probeInstance, Step.startInstance, Step.resolveIP],
        err := (GetIP env.ipUtilErr env.ipRes).2,
        drv := { d with ipAddress := (GetIP env.ipUtilErr env.ipRes).1 } })

/-! ## Stop, Restart (google.go lines 455-476) -/

/-- Stop: newComputeUtil, then c.stopInstance(); on success the cached
IP address is cleared (google.go lines 455-467). -/
def Stop (d : Driver) (newUtilErr stopErr : Option GError) : OpResult :=
  match newUtilErr with
  | some e => { trace := [], err := some e, drv := d }
  | none =>
    match stopErr with
    | some e => { trace := [Step.stopInstance], err := some e, drv := d }
    | none => { trace := [Step.stopInstance], err := none, drv := { d with ipAddress := "" } }

/-- Provider-call results consumed by Restart: those of its Stop call
followed by those of its Start call. -/
structure RestartEnv where
  stopUtilErr : Option GError
  stopErr : Option GError
  startEnv : StartEnv
deriving Repr

/-- Restart: d.Stop(), returning its error at once when it fails, then
d.Start() on the driver Stop produced (google.go lines 470-476). -/
def Restart (d : Driver) (env : RestartEnv) : OpResult :=
  let s := Stop d env.stopUtilErr env.stopErr
  match s.err with
  | some e => { trace := s.trace, err := some e, drv := s.drv }
  | none =>
    let st := Start s.drv env.startEnv
    { trace := s.trace ++ st.trace, err := st.err, drv := st.drv }

/-- The behavioural contract of Restart proved for C7: when Stop fails,
Restart returns Stop's result unchanged and its trace contains none of
Start's steps (Start never attempted); when Stop succeeds, Restart is the
sequential composition of Stop and Start on the driver Stop produced. -/
def restartContract (d : Driver) (env : RestartEnv) : Prop :=
  let s := Stop d env.stopUtilErr env.stopErr
  (∀ e, s.err = some e →
    Restart d env = { trace := s.trace, err := some e, drv := s.drv } ∧
    Step.probeInstance ∉ (Restart d env).trace ∧
    Step.createInstance ∉ (Restart d env).trace ∧
    Step.startInstance ∉ (Restart d env).trace ∧
    Step.resolveIP ∉ (Restart d env).trace) ∧
  (s.err = none →
    Restart d env =
      { trace := s.trace ++ (Start s.drv env.startEnv).trace,
        err := (Start s.drv env.startEnv).err,
        drv := (Start s.drv env.startEnv).drv })

/-! ## Remote world after a stop (for the Stop-then-GetIP scenario) -/

/-- The slice of remote state GetIP depends on: the instance's status and
the external address its network interfaces expose. -/
structure World where
  instStatus : String
  boundAddress : String
deriving DecidableEq, Repr

/-- Modelled from the spec: the cloud-side effect of the provider stop
action issued by stopInstance (computeutil, not in src) — the instance
transitions to TERMINATED and its ephemeral external address is released,
so nothing routable remains bound (spec 4.4 Stop: never leave a stale
address that no longer routes). -/
def stopWorld (_w : World) : World :=
  { instStatus := "TERMINATED", boundAddress := "" }

/-- Modelled from the spec: c.ip() from computeutil (not in src) derives
the address from the instance's network interfaces (spec 4.4 GetIP/GetURL),
i.e. the address currently bound in the remote world. -/
def resolveBoundIP (w : World) : String :=
  w.boundAddress

/-! ## Remove (google.go lines 484-537) -/

/-- Provider-call results consumed by Remove: newComputeUtil,
deleteInstance, deleteDisk, the two firewall-rule fetches and the two
CleanUpFirewallRule calls.  The fetched rule itself is only handed on to
CleanUpFirewallRule, so it is modelled by Unit. -/
structure RemoveEnv where
  newUtilErr : Option GError
  deleteInstanceErr : Option GError
  deleteDiskErr : Option GError
  getExtRuleRes : Except GError Unit
  cleanExtErr : Option GError
  getIntRuleRes : Except GError Unit
  cleanIntErr : Option GError
deriving Repr

/-- External-rule cleanup of Remove (google.go lines 510-521), run only
when ports were opened: a not-found fetch is logged and contributes no
error; any other fetch failure or a CleanUpFirewallRule failure is
appended to the collected error list and the phase continues. -/
def removeExtPhase (d : Driver) (env : RemoveEnv) : List Step × List GError :=
  if d.openPorts ≠ [] then
    match env.getExtRuleRes with
    | Except.error e =>
      if isNotFound e then ([Step.getExternalFirewallRule], [])
      else ([Step.getExternalFirewallRule], [e])
    | Except.ok _ =>
      match env.cleanExtErr with
      | some e => ([Step.getExternalFirewallRule, Step.cleanExternalFirewallRule], [e])
      | none => ([Step.getExternalFirewallRule, Step.cleanExternalFirewallRule], [])
  else ([], [])

/-- Internal-rule cleanup of Remove (google.go lines 523-534), run only
when the internal rule name marker is configured; identical collection
discipline to the external phase and independent of its outcome. -/
def removeIntPhase (d : Driver) (env : RemoveEnv) : List Step × List GError :=
  if d.internalFirewallRulePref ≠ "" then
    match env.getIntRuleRes with
    | Except.error e =>
      if isNotFound e then ([Step.getInternalFirewallRule], [])
      else ([Step.getInternalFirewallRule], [e])
    | Except.ok _ =>
      match env.cleanIntErr with
      | some e => ([Step.getInternalFirewallRule, Step.cleanInternalFirewallRule], [e])
      | none => ([Step.getInternalFirewallRule, Step.cleanInternalFirewallRule], [])
  else ([], [])

/-- errors.Join: nil when no error was collected, otherwise the collected
errors combined (google.go line 536). -/
def joinErrs (l : List GError) : Option (List GError) :=
  if l = [] then none else some l

/-- Disk phase of Remove (google.go lines 498-504): a not-found delete is
logged and the method continues; any other failure is returned at once. -/
def removeDiskPhase (d : Driver) (env : RemoveEnv) : List Step × Option (List GError) :=
  let ex := removeExtPhase d env
  let im := removeIntPhase d env
  let rest := (Step.deleteDisk :: (ex.1 ++ im.1), joinErrs (ex.2 ++ im.2))
  match env.deleteDiskErr with
  | some e => if isNotFound e then rest else ([Step.deleteDisk], some [e])
  | none => rest

/-- Remove (google.go lines 484-537): newComputeUtil, deleteInstance with
the same return-at-once discipline as the disk phase, then the disk phase
and the two firewall phases. -/
def Remove (d : Driver) (env : RemoveEnv) : List Step × Option (List GError) :=
  match env.newUtilErr with
  | some e => ([], some [e])
  | none =>
    let rest := removeDiskPhase d env
    match env.deleteInstanceErr with
    | some e =>
      if isNotFound e then (Step.deleteInstance :: rest.1, rest.2)
      else ([Step.deleteInstance], some [e])
    | none => (Step.deleteInstance :: rest.1, rest.2)

/-- The behavioural contract of Remove proved for C1 (amended): a
non-not-found instance-delete or disk-delete failure is returned at once,
skipping all later steps, while the two firewall cleanup phases are both
attempted regardless of each other's outcome and only their failures are
collected into the combined error. -/
def removeContract (d : Driver) (env : RemoveEnv) : Prop :=
  (∀ e, env.deleteInstanceErr = some e → isNotFound e = false →
    Remove d env = ([Step.deleteInstance], some [e])) ∧
  ((env.deleteInstanceErr = none ∨ env.deleteInstanceErr = some GError.notFound) →
    ∀ e, env.deleteDiskErr = some e → isNotFound e = false →
      Remove d env = ([Step.deleteInstance, Step.deleteDisk], some [e])) ∧
  ((env.deleteInstanceErr = none ∨ env.deleteInstanceErr = some GError.notFound) →
    (env.deleteDiskErr = none ∨ env.deleteDiskErr = some GError.notFound) →
    Remove d env =
      (Step.deleteInstance :: Step.deleteDisk ::
          ((removeExtPhase d env).1 ++ (removeIntPhase d env).1),
        joinErrs ((removeExtPhase d env).2 ++ (removeIntPhase d env).2))) ∧
  ((env.deleteInstanceErr = none ∨ env.deleteInstanceErr = some GError.notFound) →
    (env.deleteDiskErr = none ∨ env.deleteDiskErr = some GError.notFound) →
    d.internalFirewallRulePref ≠ "" →
    Step.getInternalFirewallRule ∈ (Remove d env).1)

/-! ## PreCreateCheck (google.go lines 288-326) -/

/-- Provider-call and file-read results consumed by PreCreateCheck:
newComputeUtil, Projects.Get, the instance probe (whose error the code
discards, checking only the object for nil), and os.ReadFile on the
user-data path. -/
structure PreCreateEnv where
  newUtilErr : Option GError
  projectErr : Option GError
  instanceRes : Option VMInstance × Option GError
  userdataRead : Except GError String
deriving Repr

/-- Userdata phase of PreCreateCheck (google.go lines 317-323): when the
user-data field is non-empty it is treated as a file path, read, and
inlined into the field; an unreadable file is fatal. -/
def preUserdataPhase (d : Driver) (env : PreCreateEnv) (pre : List Step) : OpResult :=
  if d.userdata ≠ "" then
    match env.userdataRead with
    | Except.error _ =>
      { trace := pre ++ [Step.readUserdata], err := some GError.userdataUnreadable, drv := d }
    | Except.ok s =>
      { trace := pre ++ [Step.readUserdata], err := none, drv := { d with userdata := s } }
  else { trace := pre, err := none, drv := d }

/-- PreCreateCheck (google.go lines 288-326): project fetch, then the mode
consistency check on the instance probe (useExisting requires presence,
its negation requires absence), then the user-data inlining.  No step
mutates remote state. -/
def PreCreateCheck (d : Driver) (env : PreCreateEnv) : OpResult :=
  match env.newUtilErr with
  | some e => { trace := [], err := some e, drv := d }
  | none =>
    match env.projectErr with
    | some _ =>
      { trace := [Step.getProject],
        err := some (GError.projectLookupFailed d.project), drv := d }
    | none =>
      match env.instanceRes.1 with
      | none =>
        if d.useExisting then
          { trace := [Step.getProject, Step.probeInstance],
            err := some GError.instanceNotFoundInZone, drv := d }
        else preUserdataPhase d env [Step.getProject, Step.probeInstance]
      | some _ =>
        if d.useExisting then
          preUserdataPhase d env [Step.getProject, Step.probeInstance]
        else
          { trace := [Step.getProject, Step.probeInstance],
            err := some GError.instanceAlreadyExistsInZone, drv := d }

/-! ## SetConfigFromFlags (google.go lines 251-285) -/

/-- The values the flag loader hands to SetConfigFromFlags, one field per
google-* flag the method reads. -/
structure Flags where
  project : String
  authEncodedJson : String
  zone : String
  machineType : String
  machineImage : String
  diskSize : Int
  diskType : String
  address : String
  network : String
  subnetwork : String
  preemptible : Bool
  useInternalIP : Bool
  useInternalIPOnly : Bool
  scopes : String
  tags : String
  openPort : List String
  externalFirewallRulePref : String
  internalFirewallRulePref : String
  vmLabels : String
  useExisting : Bool
  username : String
  userdata : String
deriving DecidableEq, Repr

/-- The URL marker strings.TrimPrefix removes from the machine image
(google.go line 263). -/
def gceComputeURLPre : String := "https://www.googleapis.com/compute/v1/projects/"

/-- strings.TrimPrefix: removes the leading marker when present, otherwise
returns the string unchanged. -/
def trimPre (p s : String) : String :=
  if p.isPrefixOf s then s.drop p.length else s

/-- SetConfigFromFlags (google.go lines 251-285): requires a project,
applies auth, zone and use-existing, applies the creation-time fields only
when use-existing is false, then the SSH username, SSH port 22 and
user-data.  (SetSwarmConfigFromFlags only touches BaseDriver swarm fields,
an external collaborator, and is not modelled.) -/
def SetConfigFromFlags (d : Driver) (f : Flags) : Except GError Driver :=
  let d1 := { d with project := f.project }
  if d1.project = "" then Except.error GError.missingProject
  else
    let d2 := { d1 with auth := f.authEncodedJson, zone := f.zone, useExisting := f.useExisting }
    let d3 :=
      if !d2.useExisting then
        { d2 with
          machineType := f.machineType
          machineImage := trimPre gceComputeURLPre f.machineImage
          diskSize := f.diskSize
          diskType := f.diskType
          address := f.address
          network := f.network
          subnetwork := f.subnetwork
          preemptible := f.preemptible
          useInternalIP := f.useInternalIP || f.useInternalIPOnly
          useInternalIPOnly := f.useInternalIPOnly
          scopes := f.scopes
          tags := f.tags
          openPorts := f.openPort
          externalFirewallRulePref := f.externalFirewallRulePref
          internalFirewallRulePref := f.internalFirewallRulePref
          labels := f.vmLabels }
      else d2
    Except.ok { d3 with sshUser := f.username, sshPort := 22, userdata := f.userdata }

/-! ## Witness fixtures: a concrete driver configuration and environments -/

/-- A concrete driver configuration with the NewDriver defaults of
google.go lines 187-203 (empty strings for the fields NewDriver leaves
unset). -/
def baseDriver : Driver :=
  { auth := "", zone := "us-central1-a", machineType := "n1-standard-1",
    machineImage := "ubuntu-os-cloud/global/images/ubuntu-2204-jammy-v20220420",
    diskType := "pd-standard", address := "", network := "default",
    subnetwork := "", preemptible := false, useInternalIP := false,
    useInternalIPOnly := false, scopes := "", diskSize := 10,
    project := "proj", tags := "", labels := "", useExisting := false,
    openPorts := [], externalFirewallRulePref := "",
    internalFirewallRulePref := "", userdata := "",
    sshUser := "docker-user", sshPort := 22, ipAddress := "",
    machineName := "vm0" }

/-- Ports opened but no external rule name marker configured. -/
def cfgW : Driver := { baseDriver with openPorts := ["8080/tcp"] }

/-- Ports opened with both rule name markers configured. -/
def cfgW2 : Driver :=
  { baseDriver with
    openPorts := ["8080/tcp"]
    externalFirewallRulePref := "ext"
    internalFirewallRulePref := "int" }

/-- A Create environment in which every provider call succeeds. -/
def envW : CreateEnv :=
  { generateKeyErr := none, newUtilErr := none, ensureExternalErr := none,
    ensureInternalErr := none, configureErr := none, createErr := none }

/-- A Start environment in which the probe reports the instance absent via
a not-found error and everything else succeeds. -/
def envStartAbsent : StartEnv :=
  { newUtilErr := none, instanceRes := (none, some GError.notFound),
    createErr := none, startErr := none, ipUtilErr := none,
    ipRes := Except.ok "203.0.113.5" }

/-- A Restart environment whose Stop call fails with a transient error. -/
def envRestartFail : RestartEnv :=
  { stopUtilErr := none, stopErr := some (GError.transient "stop failed"),
    startEnv := envStartAbsent }

/-- A Remove environment whose instance delete fails with a transient
(non-not-found) error while every other call would succeed. -/
def envRemoveInstFail : RemoveEnv :=
  { newUtilErr := none, deleteInstanceErr := some (GError.transient "quota exceeded"),
    deleteDiskErr := none, getExtRuleRes := Except.ok (), cleanExtErr := none,
    getIntRuleRes := Except.ok (), cleanIntErr := none }

/-- A Remove environment in which instance and disk are already gone and
the external rule cleanup fails while the internal one succeeds. -/
def envRemoveExtFail : RemoveEnv :=
  { newUtilErr := none, deleteInstanceErr := some GError.notFound,
    deleteDiskErr := some GError.notFound, getExtRuleRes := Except.ok (),
    cleanExtErr := some (GError.transient "ext rule busy"),
    getIntRuleRes := Except.ok (), cleanIntErr := none }

/-- A PreCreateCheck environment with a reachable project and an absent
instance. -/
def envPreAbsent : PreCreateEnv :=
  { newUtilErr := none, projectErr := none,
    instanceRes := (none, some GError.notFound), userdataRead := Except.ok "" }

/-- A full concrete flag set, use-existing disabled, the internal-only IP
flag enabled. -/
def flagsW : Flags :=
  { project := "proj", authEncodedJson := "auth", zone := "us-central1-b",
    machineType := "n2-standard-2", machineImage := "img", diskSize := 20,
    diskType := "pd-ssd", address := "198.51.100.7", network := "net",
    subnetwork := "subnet", preemptible := true, useInternalIP := false,
    useInternalIPOnly := true, scopes := "scope1", tags := "t1,t2",
    openPort := ["8080/tcp"], externalFirewallRulePref := "ext",
    internalFirewallRulePref := "int", vmLabels := "k=v",
    useExisting := false, username := "user1", userdata := "ud" }

/-- The same flag set with use-existing enabled. -/
def flagsExisting : Flags := { flagsW with useExisting := true }

/-- The base driver in use-existing mode. -/
def cfgExisting : Driver := { baseDriver with useExisting := true }

/-! ## Theorems -/

/-- C2: for every combination of instance presence, instance status, disk
presence and probe error, GetState returns exactly the value of the spec's
first-match decision table, and a not-found probe result is converted to
the NotFound state value rather than returned as an error. -/
theorem getState_matches_spec_table (inst : Option VMInstance) (instErr : Option GError)
    (diskRes : Option Unit) :
    GetState none (inst, instErr) diskRes = (specStateTable inst instErr diskRes, none) := by
  cases inst with
  | none =>
    cases instErr with
    | none => cases diskRes <;> simp [GetState, specStateTable, isNotFound]
    | some e =>
      cases e <;> cases diskRes <;> simp [GetState, specStateTable, isNotFound]
  | some i =>
    simp only [GetState, specStateTable, statusToState]
    split_ifs <;> simp_all

/-- C3: with a non-empty open-port list and an empty external firewall rule
name marker, Create returns an error and its trace contains no provider
mutation: no firewall rule is ensured and no instance is created or
reconfigured, in every environment. -/
theorem create_missing_ext_pref_fails_before_mutation (d : Driver) (env : CreateEnv)
    (hports : d.openPorts ≠ []) (hpre : d.externalFirewallRulePref = "") :
    (Create d env).2.isSome = true ∧
      (Create d env).1.all (fun s => !s.isProviderMutation) = true := by
  cases hk : env.generateKeyErr with
  | some e => simp [Create, hk, Step.isProviderMutation]
  | none =>
    cases hu : env.newUtilErr with
    | some e => simp [Create, hk, hu, Step.isProviderMutation]
    | none =>
      simp [Create, hk, hu, createPortsPhase, hports, hpre, Step.isProviderMutation]

/-- Witness for C3 at a concrete driver and environment. -/
theorem create_missing_ext_pref_fails_before_mutation_witness :
    (cfgW.openPorts ≠ [] ∧ cfgW.externalFirewallRulePref = "") ∧
      ((Create cfgW envW).2.isSome = true ∧
        (Create cfgW envW).1.all (fun s => !s.isProviderMutation) = true) :=
  ⟨⟨by decide, rfl⟩,
    create_missing_ext_pref_fails_before_mutation cfgW envW (by decide) rfl⟩

/-- C6: in every successful Create run the trace is exactly key generation,
then the external rule ensure when ports are open, then the internal rule
ensure when its name marker is configured, then the single instance
mutation; hence the applicable firewall reconciliations complete strictly
before the instance is created or reconfigured. -/
theorem create_firewalls_before_instance (d : Driver) (env : CreateEnv)
    (hok : (Create d env).2 = none) :
    (Create d env).1 =
      [Step.generateSSHKey]
        ++ (if d.openPorts = [] then [] else [Step.ensureExternalFirewallRule])
        ++ (if d.internalFirewallRulePref = "" then [] else [Step.ensureInternalFirewallRule])
        ++ [if d.useExisting then Step.configureInstance else Step.createInstance] := by
  cases hk : env.generateKeyErr with
  | some e => simp [Create, hk] at hok
  | none =>
    cases hu : env.newUtilErr with
    | some e => simp [Create, hk, hu] at hok
    | none =>
      simp only [Create, hk, hu] at hok ⊢
      by_cases hports : d.openPorts = [] <;>
        by_cases hint : d.internalFirewallRulePref = "" <;>
        by_cases hext : d.externalFirewallRulePref = "" <;>
        by_cases huse : d.useExisting = true <;>
        cases he : env.ensureExternalErr <;>
        cases hi : env.ensureInternalErr <;>
        cases hc : env.configureErr <;>
        cases hcr : env.createErr <;>
        simp_all [createPortsPhase, createInternalRulePhase, createInstancePhase]

/-- Witness for C6 at a concrete driver and all-success environment. -/
theorem create_firewalls_before_instance_witness :
    (Create cfgW2 envW).2 = none ∧
      (Create cfgW2 envW).1 =
        [Step.generateSSHKey]
          ++ (if cfgW2.openPorts = [] then [] else [Step.ensureExternalFirewallRule])
          ++ (if cfgW2.internalFirewallRulePref = "" then []
              else [Step.ensureInternalFirewallRule])
          ++ [if cfgW2.useExisting then Step.configureInstance else Step.createInstance] :=
  ⟨rfl, create_firewalls_before_instance cfgW2 envW rfl⟩

/-- C4 counterexample: with ports opened and no external rule name marker,
Start on an absent instance succeeds by issuing the provider
instance-creation call directly, performing neither SSH key generation nor
any firewall-rule reconciliation, while full Create on the same
configuration fails; so Start does not perform full Create. -/
theorem start_absent_is_not_full_create :
    (Start cfgW envStartAbsent).err = none ∧
    Step.createInstance ∈ (Start cfgW envStartAbsent).trace ∧
    Step.generateSSHKey ∉ (Start cfgW envStartAbsent).trace ∧
    Step.ensureExternalFirewallRule ∉ (Start cfgW envStartAbsent).trace ∧
    (Create cfgW envW).2 = some GError.missingExternalFirewallRulePref := by
  decide

/-- C4 (amended): Start fails at once on a non-not-found probe error;
when the instance is absent it issues the provider instance-creation call
(not the full Create sequence) and when present the provider start call;
afterward the resolved IP outcome is recorded in the IP-address field. -/
theorem start_behaviour (d : Driver) (env : StartEnv)
    (hu : env.newUtilErr = none) : startContract d env := by
  refine ⟨?_, ?_, ?_⟩
  · intro e he hnf
    simp [Start, hu, he, hnf]
  · intro h1 hnf hc
    cases hi : env.instanceRes.2 with
    | none => simp [Start, hu, hi, startBranch, h1, hc, startFinish]
    | some e =>
      have hne := hnf e hi
      simp [Start, hu, hi, hne, startBranch, h1, hc, startFinish]
  · intro i h1 hnf hs
    cases hi : env.instanceRes.2 with
    | none => simp [Start, hu, hi, startBranch, h1, hs, startFinish]
    | some e =>
      have hne := hnf e hi
      simp [Start, hu, hi, hne, startBranch, h1, hs, startFinish]

/-- Witness for C4 (amended) at a concrete driver and environment. -/
theorem start_behaviour_witness :
    envStartAbsent.newUtilErr = none ∧ startContract cfgW2 envStartAbsent :=
  ⟨rfl, start_behaviour cfgW2 envStartAbsent rfl⟩

/-- C7: Restart performs Stop then Start sequentially; when Stop fails,
Restart returns Stop's error and none of Start's steps occur; when Stop
succeeds, Restart continues with Start on the driver Stop produced. -/
theorem restart_is_stop_then_start (d : Driver) (env : RestartEnv) :
    restartContract d env := by
  unfold restartContract
  cases hu : env.stopUtilErr <;> cases hs : env.stopErr <;>
    simp [Restart, Stop, hu, hs]

/-- Witness for C7: at a concrete environment whose Stop fails, the
fail-fast branch is discharged concretely. -/
theorem restart_is_stop_then_start_witness :
    Restart baseDriver envRestartFail =
      { trace := [Step.stopInstance], err := some (GError.transient "stop failed"),
        drv := baseDriver } ∧
    Step.probeInstance ∉ (Restart baseDriver envRestartFail).trace ∧
    Step.createInstance ∉ (Restart baseDriver envRestartFail).trace ∧
    Step.startInstance ∉ (Restart baseDriver envRestartFail).trace ∧
    Step.resolveIP ∉ (Restart baseDriver envRestartFail).trace :=
  (restart_is_stop_then_start baseDriver envRestartFail).1
    (GError.transient "stop failed") rfl

/-- C8: a successful Stop clears the driver's cached IP address; after the
stop the remote world binds no address, so the resolved address is empty,
and GetIP on an empty resolved address fails with the distinguished
host-not-running error rather than returning a stale address. -/
theorem stop_then_getip_host_not_running (d : Driver) (w : World) :
    (Stop d none none).err = none ∧
    (Stop d none none).drv.ipAddress = "" ∧
    resolveBoundIP (stopWorld w) = "" ∧
    GetIP none (Except.ok (resolveBoundIP (stopWorld w))) =
      ("", some GError.hostNotRunning) := by
  refine ⟨rfl, rfl, rfl, ?_⟩
  simp [GetIP, resolveBoundIP, stopWorld]

/-- C1 counterexample: when the instance delete fails with a transient
(non-not-found) error, Remove returns that error at once — the disk delete
is never attempted, so deletion failures before the firewall phases are
not collected. -/
theorem remove_instance_fail_skips_disk :
    Remove cfgW2 envRemoveInstFail =
      ([Step.deleteInstance], some [GError.transient "quota exceeded"]) ∧
    Step.deleteDisk ∉ (Remove cfgW2 envRemoveInstFail).1 := by
  decide

/-- C1 (amended): non-not-found instance-delete and disk-delete failures
are returned immediately, skipping all later steps; only the two
firewall-rule cleanup phases collect their failures, both being attempted
regardless of each other's outcome, with the collected errors combined
into the returned error. -/
theorem remove_error_collection (d : Driver) (env : RemoveEnv)
    (hu : env.newUtilErr = none) : removeContract d env := by
  have key : (env.deleteInstanceErr = none ∨ env.deleteInstanceErr = some GError.notFound) →
      (env.deleteDiskErr = none ∨ env.deleteDiskErr = some GError.notFound) →
      Remove d env =
        (Step.deleteInstance :: Step.deleteDisk ::
            ((removeExtPhase d env).1 ++ (removeIntPhase d env).1),
          joinErrs ((removeExtPhase d env).2 ++ (removeIntPhase d env).2)) := by
    have hNF : isNotFound GError.notFound = true := rfl
    intro h1 h2
    rcases h1 with h1 | h1 <;> rcases h2 with h2 | h2 <;>
      simp [Remove, removeDiskPhase, hu, h1, h2, hNF]
  have hNF : isNotFound GError.notFound = true := rfl
  refine ⟨?_, ?_, key, ?_⟩
  · intro e he hnf
    simp [Remove, hu, he, hnf]
  · intro h1 e he hnf
    rcases h1 with h1 | h1 <;>
      simp [Remove, removeDiskPhase, hu, h1, he, hnf, hNF]
  · intro h1 h2 hint
    have hmem : Step.getInternalFirewallRule ∈ (removeIntPhase d env).1 := by
      unfold removeIntPhase
      rw [if_pos hint]
      cases env.getIntRuleRes with
      | error e => by_cases hnf : isNotFound e = true <;> simp [hnf]
      | ok u => cases env.cleanIntErr <;> simp
    rw [key h1 h2]
    simp only [List.mem_cons, List.mem_append]
    tauto

/-- Witness for C1 (amended): instance and disk already gone, external
rule cleanup failing — the firewall phase still runs in full. -/
theorem remove_error_collection_witness :
    Remove cfgW2 envRemoveExtFail =
      (Step.deleteInstance :: Step.deleteDisk ::
          ((removeExtPhase cfgW2 envRemoveExtFail).1 ++
            (removeIntPhase cfgW2 envRemoveExtFail).1),
        joinErrs ((removeExtPhase cfgW2 envRemoveExtFail).2 ++
          (removeIntPhase cfgW2 envRemoveExtFail).2)) :=
  (remove_error_collection cfgW2 envRemoveExtFail rfl).2.2.1 (Or.inr rfl) (Or.inr rfl)

/-- C5: with a reachable project, PreCreateCheck in use-existing mode
fails with the instance-not-found condition when the probe finds no
instance, and outside use-existing mode fails with the already-exists
condition when it finds one; in both cases the trace holds no provider
mutation and the driver is unchanged. -/
theorem precreate_mode_mismatch (d : Driver) (env : PreCreateEnv)
    (hu : env.newUtilErr = none) (hp : env.projectErr = none) :
    (d.useExisting = true → env.instanceRes.1 = none →
      PreCreateCheck d env =
        { trace := [Step.getProject, Step.probeInstance],
          err := some GError.instanceNotFoundInZone, drv := d } ∧
      ((PreCreateCheck d env).trace.all fun s => !s.isProviderMutation) = true) ∧
    (d.useExisting = false → ∀ i, env.instanceRes.1 = some i →
      PreCreateCheck d env =
        { trace := [Step.getProject, Step.probeInstance],
          err := some GError.instanceAlreadyExistsInZone, drv := d } ∧
      ((PreCreateCheck d env).trace.all fun s => !s.isProviderMutation) = true) := by
  constructor
  · intro hue hin
    have heq : PreCreateCheck d env =
        { trace := [Step.getProject, Step.probeInstance],
          err := some GError.instanceNotFoundInZone, drv := d } := by
      simp [PreCreateCheck, hu, hp, hin, hue]
    refine ⟨heq, ?_⟩
    rw [heq]
    rfl
  · intro hue i hin
    have heq : PreCreateCheck d env =
        { trace := [Step.getProject, Step.probeInstance],
          err := some GError.instanceAlreadyExistsInZone, drv := d } := by
      simp [PreCreateCheck, hu, hp, hin, hue]
    refine ⟨heq, ?_⟩
    rw [heq]
    rfl

/-- Witness for C5: use-existing mode with an absent remote instance. -/
theorem precreate_mode_mismatch_witness :
    PreCreateCheck cfgExisting envPreAbsent =
      { trace := [Step.getProject, Step.probeInstance],
        err := some GError.instanceNotFoundInZone, drv := cfgExisting } ∧
    ((PreCreateCheck cfgExisting envPreAbsent).trace.all
      fun s => !s.isProviderMutation) = true :=
  (precreate_mode_mismatch cfgExisting envPreAbsent rfl rfl).1 rfl rfl

/-- C9: with use-existing set, SetConfigFromFlags applies exactly project,
auth, zone, use-existing, SSH username, SSH port and user-data, leaving
every creation-time field of the driver at its prior value. -/
theorem setconfig_use_existing_frame (d : Driver) (f : Flags)
    (hp : f.project ≠ "") (hex : f.useExisting = true) :
    SetConfigFromFlags d f =
      Except.ok
        { d with
          project := f.project
          auth := f.authEncodedJson
          zone := f.zone
          useExisting := true
          sshUser := f.username
          sshPort := 22
          userdata := f.userdata } := by
  simp [SetConfigFromFlags, hp, hex]

/-- Witness for C9 at a concrete driver and flag set. -/
theorem setconfig_use_existing_frame_witness :
    (flagsExisting.project ≠ "" ∧ flagsExisting.useExisting = true) ∧
    SetConfigFromFlags baseDriver flagsExisting =
      Except.ok
        { baseDriver with
          project := flagsExisting.project
          auth := flagsExisting.authEncodedJson
          zone := flagsExisting.zone
          useExisting := true
          sshUser := flagsExisting.username
          sshPort := 22
          userdata := flagsExisting.userdata } :=
  ⟨⟨by decide, rfl⟩,
    setconfig_use_existing_frame baseDriver flagsExisting (by decide) rfl⟩

/-- C10: with use-existing unset, a successful SetConfigFromFlags leaves
the use-internal-IP field true exactly when one of the two internal-IP
flags is set; in particular the internal-only flag forces it to true. -/
theorem setconfig_internal_ip (d : Driver) (f : Flags)
    (hp : f.project ≠ "") (hex : f.useExisting = false) :
    (SetConfigFromFlags d f).toOption.map (fun x => x.useInternalIP) =
      some (f.useInternalIP || f.useInternalIPOnly) ∧
    (f.useInternalIPOnly = true →
      (SetConfigFromFlags d f).toOption.map (fun x => x.useInternalIP) = some true) := by
  constructor
  · simp [SetConfigFromFlags, hp, hex, Except.toOption]
  · intro h
    simp [SetConfigFromFlags, hp, hex, h, Except.toOption]

/-- Witness for C10 at a concrete driver and flag set with the
internal-only flag enabled. -/
theorem setconfig_internal_ip_witness :
    (flagsW.project ≠ "" ∧ flagsW.useExisting = false ∧ flagsW.useInternalIPOnly = true) ∧
    (SetConfigFromFlags baseDriver flagsW).toOption.map (fun x => x.useInternalIP) =
      some true :=
  ⟨⟨by decide, rfl, rfl⟩,
    (setconfig_internal_ip baseDriver flagsW (by decide) rfl).2 rfl⟩

end Google
